import Mathlib

/-!
Verification of the time-grid coordinate and interaction-geometry engine of
the weekly planner (`weeklyplanner.py`).

Pixel coordinates are embedded as rationals (`ℚ`), calendar minutes as
integers (`ℤ`).  Python's `int()` truncation toward zero and its float floor
division `//` are made explicit (`pyInt`, `Int.floor`).  Datetimes are
embedded as naive wall-clock minute counts together with an optional
timezone offset; object identity of Python event objects is embedded as a
natural-number id carried next to the field data.
-/

/-- `START_HOUR = 6` (module constant of `weeklyplanner.py`). -/
def START_HOUR : Int := 6

/-- `END_HOUR = 24` (module constant of `weeklyplanner.py`). -/
def END_HOUR : Int := 24

/-- `SNAP_MINUTES = 15` (module constant of `weeklyplanner.py`). -/
def SNAP_MINUTES : Int := 15

/-- `HEADER_HEIGHT = 26` (module constant), a pixel quantity. -/
def HEADER_HEIGHT : ℚ := 26

/-- `TIME_LABEL_WIDTH = 44` (module constant), a pixel quantity. -/
def TIME_LABEL_WIDTH : ℚ := 44

/-- `PADDING = 4` (module constant), a pixel quantity. -/
def PADDING : ℚ := 4

/-- `CalendarScene.total_minutes = (END_HOUR - START_HOUR) * 60`. -/
def total_minutes : Int := (END_HOUR - START_HOUR) * 60

/-- Python `int(q)` applied to a real quantity: truncation toward zero. -/
def pyInt (q : ℚ) : Int := if 0 ≤ q then ⌊q⌋ else ⌈q⌉

/-- `snap_minutes` from `weeklyplanner.py`.
`r = minutes % SNAP_MINUTES` is Python's floor-mod, which for the positive
modulus 15 agrees with `Int.emod` (Lean's `%`).  The test
`r >= SNAP_MINUTES / 2` compares the integer `r` against the float `7.5`;
for integers this is exactly `2 * r ≥ SNAP_MINUTES`.  The function then adds
`SNAP_MINUTES - r` or subtracts `r`, and finally clamps with `max(0, ...)`. -/
def snap_minutes (minutes : Int) : Int :=
  if 2 * (minutes % SNAP_MINUTES) ≥ SNAP_MINUTES then
    max 0 (minutes + (SNAP_MINUTES - minutes % SNAP_MINUTES))
  else
    max 0 (minutes - minutes % SNAP_MINUTES)

/-- `CalendarScene._minute_pixel_factor = grid_height / total_minutes`. -/
def minute_pixel_factor (grid_height : ℚ) : ℚ :=
  grid_height / (total_minutes : ℚ)

/-- `CalendarScene.minutes_to_pixels`: `minutes * _minute_pixel_factor`. -/
def minutes_to_pixels (grid_height : ℚ) (minutes : Int) : ℚ :=
  (minutes : ℚ) * minute_pixel_factor grid_height

/-- `CalendarScene.day_bottom_y = HEADER_HEIGHT + grid_height`. -/
def day_bottom_y (grid_height : ℚ) : ℚ := HEADER_HEIGHT + grid_height

/-- `CalendarScene.day_index_to_x`: `TIME_LABEL_WIDTH + day_index * column_width`. -/
def day_index_to_x (column_width : ℚ) (day_index : Int) : ℚ :=
  TIME_LABEL_WIDTH + (day_index : ℚ) * column_width

/-- `CalendarScene.x_to_day_index`:
`idx = int((x - TIME_LABEL_WIDTH) // column_width)` (float floor division,
already integral, so `int()` is exact), then `max(0, min(n_days - 1, idx))`
with `n_days = 7`. -/
def x_to_day_index (column_width x : ℚ) : Int :=
  max 0 (min (7 - 1) ⌊(x - TIME_LABEL_WIDTH) / column_width⌋)

/- ### Basic facts about the constants and the snap rule -/

theorem total_minutes_eq : total_minutes = 1080 := by
  norm_num [total_minutes, END_HOUR, START_HOUR]

theorem snap_minutes_nonneg (m : Int) : 0 ≤ snap_minutes m := by
  unfold snap_minutes SNAP_MINUTES
  split <;> omega

theorem snap_minutes_dvd (m : Int) : 15 ∣ snap_minutes m := by
  unfold snap_minutes SNAP_MINUTES
  split <;> omega

theorem snap_minutes_le_of_dvd (m M : Int) (hm : m ≤ M) (hM : 0 ≤ M)
    (hdvd : 15 ∣ M) : snap_minutes m ≤ M := by
  unfold snap_minutes SNAP_MINUTES
  split <;> omega

theorem snap_minutes_fixed (m : Int) (h0 : 0 ≤ m) (hdvd : 15 ∣ m) :
    snap_minutes m = m := by
  unfold snap_minutes SNAP_MINUTES
  split <;> omega

theorem pyInt_intCast (n : Int) : pyInt (n : ℚ) = n := by
  unfold pyInt
  split <;> simp

theorem pyInt_of_nonneg (q : ℚ) (h : 0 ≤ q) : pyInt q = ⌊q⌋ := if_pos h

/-- Modelled from the spec (§4.2 Snap Rule), for comparison with
`snap_minutes`: `r = minutes mod increment`; if `r >= increment/2` round up
(`minutes + (increment - r)`), else round down (`minutes - r`); the whole
result clamped below at 0.  Increment is 15, and for integer `r` the test
`r >= 15/2` is `2 * r ≥ 15`. -/
def snap_spec (minutes : Int) : Int :=
  max 0
    (if 2 * (minutes % 15) ≥ 15 then minutes + (15 - minutes % 15)
     else minutes - minutes % 15)

/-- C3: `snap_minutes` equals the spec's rounding rule with increment 15
(round up when the remainder is at least half the increment, down otherwise,
result clamped at 0), and takes the spec's sample values:
`snap(12) = 15`, `snap(7) = 0`, `snap(37) = 30`, `snap(0) = 0`,
`snap(60) = 60`. -/
theorem snap_minutes_matches_spec :
    (∀ m : Int, snap_minutes m = snap_spec m)
    ∧ snap_minutes 12 = 15 ∧ snap_minutes 7 = 0 ∧ snap_minutes 37 = 30
    ∧ snap_minutes 0 = 0 ∧ snap_minutes 60 = 60 := by
  refine ⟨fun m => ?_, by decide, by decide, by decide, by decide, by decide⟩
  unfold snap_minutes snap_spec SNAP_MINUTES
  split <;> omega

/-- C9: `snap_minutes` is idempotent on non-negative inputs:
`snap_minutes (snap_minutes m) = snap_minutes m` for all `0 ≤ m`. -/
theorem snap_minutes_idempotent (m : Int) (_h : 0 ≤ m) :
    snap_minutes (snap_minutes m) = snap_minutes m :=
  snap_minutes_fixed _ (snap_minutes_nonneg m) (snap_minutes_dvd m)

theorem snap_minutes_idempotent_witness :
    snap_minutes (snap_minutes 37) = snap_minutes 37 :=
  snap_minutes_idempotent 37 (by decide)

/-- C10: `snap_minutes` is total on all integers; its result is always a
non-negative multiple of `SNAP_MINUTES`, and every negative input yields
exactly 0 (Python's floor-mod of a negative number is non-negative, and the
final `max(0, ...)` absorbs any negative intermediate). -/
theorem snap_minutes_total_nonneg_multiple (m : Int) :
    0 ≤ snap_minutes m ∧ SNAP_MINUTES ∣ snap_minutes m
    ∧ (m < 0 → snap_minutes m = 0) := by
  refine ⟨snap_minutes_nonneg m, snap_minutes_dvd m, fun hneg => ?_⟩
  unfold snap_minutes SNAP_MINUTES
  split <;> omega

theorem snap_minutes_total_nonneg_multiple_witness :
    0 ≤ snap_minutes (-7) ∧ SNAP_MINUTES ∣ snap_minutes (-7)
    ∧ snap_minutes (-7) = 0 :=
  ⟨(snap_minutes_total_nonneg_multiple (-7)).1,
   (snap_minutes_total_nonneg_multiple (-7)).2.1,
   (snap_minutes_total_nonneg_multiple (-7)).2.2 (by decide)⟩

/- ### Data model -/

/-- A Python `datetime`, reduced to what the planner uses: the naive
wall-clock instant in minutes, plus an optional timezone offset (in minutes)
when the value is timezone-aware.  Comparison of naive datetimes compares
wall-clock values. -/
structure PyDatetime where
  wall : Int
  tz : Option Int
deriving DecidableEq

/-- `datetime.replace(tzinfo=None)`: keeps the wall-clock fields, drops the
offset. -/
def replace_tz_none (d : PyDatetime) : PyDatetime :=
  { wall := d.wall, tz := none }

/-- The `CalendarEvent` dataclass: title, start, duration in minutes,
color index (default 0). -/
structure CalendarEvent where
  title : String
  start : PyDatetime
  duration_min : Int
  color_idx : Int := 0
deriving DecidableEq

/-- A Python object reference to a `CalendarEvent`: `eid` embeds object
identity (`is` / `is not`), `val` the field data.  Two references with equal
`val` but different `eid` model distinct field-equal objects. -/
structure EventRef where
  eid : Nat
  val : CalendarEvent
deriving DecidableEq

/-- `CalendarModel.add_event`: `self.events.append(event)`. -/
def add_event (events : List EventRef) (event : EventRef) : List EventRef :=
  events ++ [event]

/-- `CalendarModel.remove_event`:
`self.events = [e for e in self.events if e is not event]` — filtering by
object identity. -/
def remove_event (events : List EventRef) (event : EventRef) : List EventRef :=
  events.filter (fun e => decide (¬ e.eid = event.eid))

/-- C6: removing an event that occurs exactly once removes exactly that
entry and leaves every other entry in place — including any distinct object
that is field-equal to the removed one, since the comparison is by identity
(`is not`), never by field equality. -/
theorem remove_event_by_identity (l1 l2 : List EventRef) (ev : EventRef)
    (h1 : ∀ e ∈ l1, e.eid ≠ ev.eid) (h2 : ∀ e ∈ l2, e.eid ≠ ev.eid) :
    remove_event (l1 ++ ev :: l2) ev = l1 ++ l2 := by
  unfold remove_event
  rw [List.filter_append, List.filter_cons]
  have hl1 : l1.filter (fun e => decide (¬ e.eid = ev.eid)) = l1 :=
    List.filter_eq_self.mpr (fun e he => by simpa using h1 e he)
  have hl2 : l2.filter (fun e => decide (¬ e.eid = ev.eid)) = l2 :=
    List.filter_eq_self.mpr (fun e he => by simpa using h2 e he)
  have hev : decide (¬ ev.eid = ev.eid) = false := by simp
  rw [hev, if_neg (by simp : ¬ (false = true)), hl1, hl2]

theorem remove_event_by_identity_witness :
    remove_event
      [⟨0, ⟨"Gym", ⟨100, none⟩, 60, 0⟩⟩, ⟨1, ⟨"Gym", ⟨100, none⟩, 60, 0⟩⟩]
      ⟨0, ⟨"Gym", ⟨100, none⟩, 60, 0⟩⟩
      = [⟨1, ⟨"Gym", ⟨100, none⟩, 60, 0⟩⟩] :=
  remove_event_by_identity [] [⟨1, ⟨"Gym", ⟨100, none⟩, 60, 0⟩⟩]
    ⟨0, ⟨"Gym", ⟨100, none⟩, 60, 0⟩⟩
    (by intro e he; cases he) (by decide)

/- ### Import reconciler -/

/-- Per-event test of `MainWindow.import_events`: strip any timezone offset
(`ev_start.replace(tzinfo=None)` when `tzinfo is not None`), accept when
`shown_start <= ev_start < shown_end` where `shown_end = week_start +
timedelta(days=7)`. -/
def in_shown_week (week_start : Int) (d : PyDatetime) : Bool :=
  let naive := replace_tz_none d
  decide (week_start ≤ naive.wall ∧ naive.wall < week_start + 7 * (24 * 60))

/-- The outcome `MainWindow.import_events` surfaces to the user: a warning
dialog carrying the error value, an informational "no events for this week"
dialog, or an informational "imported N events" dialog. -/
inductive ImportOutcome where
  | importError (err : String)
  | noEventsThisWeek
  | imported (count : Nat)
deriving DecidableEq

/-- The body of the `for ev in result` loop of `MainWindow.import_events`:
an accepted event is appended to the model and counted. -/
def import_step (week_start : Int) (acc : List EventRef × Nat)
    (ev : EventRef) : List EventRef × Nat :=
  if in_shown_week week_start ev.val.start then (add_event acc.1 ev, acc.2 + 1)
  else acc

/-- `MainWindow.import_events`, after the file dialog: the parse result is
either an error value (as returned by `import_events_from_ics`, whose
`try/except` returns the exception object rather than raising) or a list of
candidate events; candidates in the shown week are added to the model and
counted, and the count selects the reported outcome. -/
def import_events (week_start : Int) (model : List EventRef)
    (result : Except String (List EventRef)) :
    List EventRef × ImportOutcome :=
  match result with
  | Except.error err => (model, ImportOutcome.importError err)
  | Except.ok evs =>
    let folded := evs.foldl (import_step week_start) (model, 0)
    if folded.2 = 0 then (folded.1, ImportOutcome.noEventsThisWeek)
    else (folded.1, ImportOutcome.imported folded.2)

theorem import_fold_spec (week_start : Int) (evs : List EventRef) :
    ∀ (model : List EventRef) (count : Nat),
      evs.foldl (import_step week_start) (model, count)
        = (model ++ evs.filter (fun ev => in_shown_week week_start ev.val.start),
           count + (evs.filter (fun ev => in_shown_week week_start ev.val.start)).length) := by
  induction evs with
  | nil => intro model count; simp
  | cons e es ih =>
    intro model count
    by_cases h : in_shown_week week_start e.val.start
    · simp [import_step, h, ih, add_event]
      omega
    · simp [import_step, h, ih]

/-- C4: importing a parsed candidate list adds to the model exactly the
events whose start, stripped to naive local time, lies in
`[week_start, week_start + 7 days)`; the reported count equals the number of
events added (zero being a distinct success outcome, not an error); a feed
with 3 events inside the week and 2 outside yields count 3 and exactly 3 new
model entries. -/
theorem import_adds_exactly_in_week :
    (∀ (week_start : Int) (model evs : List EventRef),
        (import_events week_start model (Except.ok evs)).1
          = model ++ evs.filter (fun ev => in_shown_week week_start ev.val.start)
      ∧ (import_events week_start model (Except.ok evs)).2
          = (if (evs.filter (fun ev => in_shown_week week_start ev.val.start)).length = 0
             then ImportOutcome.noEventsThisWeek
             else ImportOutcome.imported
               (evs.filter (fun ev => in_shown_week week_start ev.val.start)).length))
    ∧ (∀ err : String, ImportOutcome.noEventsThisWeek ≠ ImportOutcome.importError err)
    ∧ (import_events 0 []
        (Except.ok
          [⟨0, ⟨"a", ⟨100, none⟩, 60, 0⟩⟩,
           ⟨1, ⟨"b", ⟨2000, some 120⟩, 30, 0⟩⟩,
           ⟨2, ⟨"c", ⟨10079, none⟩, 45, 0⟩⟩,
           ⟨3, ⟨"d", ⟨-5, none⟩, 60, 0⟩⟩,
           ⟨4, ⟨"e", ⟨10080, none⟩, 60, 0⟩⟩])).2 = ImportOutcome.imported 3
    ∧ (import_events 0 []
        (Except.ok
          [⟨0, ⟨"a", ⟨100, none⟩, 60, 0⟩⟩,
           ⟨1, ⟨"b", ⟨2000, some 120⟩, 30, 0⟩⟩,
           ⟨2, ⟨"c", ⟨10079, none⟩, 45, 0⟩⟩,
           ⟨3, ⟨"d", ⟨-5, none⟩, 60, 0⟩⟩,
           ⟨4, ⟨"e", ⟨10080, none⟩, 60, 0⟩⟩])).1
        = [⟨0, ⟨"a", ⟨100, none⟩, 60, 0⟩⟩,
           ⟨1, ⟨"b", ⟨2000, some 120⟩, 30, 0⟩⟩,
           ⟨2, ⟨"c", ⟨10079, none⟩, 45, 0⟩⟩] := by
  refine ⟨fun week_start model evs => ?_, fun err => by simp, by decide, by decide⟩
  by_cases hz :
      (evs.filter (fun ev => in_shown_week week_start ev.val.start)).length = 0 <;>
    simp [import_events, import_fold_spec, hz]

/-- C7: a failed import (nonexistent or unreadable source, or a parse
failure) is returned as a data value — `import_events_from_ics` catches the
exception and returns it — and `import_events` then leaves the event model
completely unchanged: no partial import occurs. -/
theorem import_error_leaves_model_unchanged
    (week_start : Int) (model : List EventRef) (err : String) :
    import_events week_start model (Except.error err)
      = (model, ImportOutcome.importError err) := rfl

/- ### Geometry facts shared by the interaction handlers -/

theorem minute_pixel_factor_pos (grid_height : ℚ) (h : 0 < grid_height) :
    0 < minute_pixel_factor grid_height := by
  unfold minute_pixel_factor
  rw [total_minutes_eq]
  exact div_pos h (by norm_num)

theorem total_mul_mpf (grid_height : ℚ) :
    (total_minutes : ℚ) * minute_pixel_factor grid_height = grid_height := by
  unfold minute_pixel_factor
  rw [total_minutes_eq]
  push_cast
  field_simp

/-- Core bound: `snap_minutes (int (num / factor))` of a non-negative pixel
quantity bounded by `M * factor` stays in `[0, M]` whenever `M` is a
non-negative multiple of 15. -/
theorem snap_pyInt_div_le (f num : ℚ) (M : Int) (hf : 0 < f) (hnum : 0 ≤ num)
    (hM : 0 ≤ M) (hdvd : (15:Int) ∣ M) (hle : num ≤ (M : ℚ) * f) :
    0 ≤ snap_minutes (pyInt (num / f))
    ∧ snap_minutes (pyInt (num / f)) ≤ M := by
  have hv0 : 0 ≤ num / f := div_nonneg hnum hf.le
  have hvM : num / f ≤ (M : ℚ) := by rw [div_le_iff₀ hf]; exact hle
  have hflM : ⌊num / f⌋ ≤ M := by
    have h := Int.floor_le_floor hvM
    simpa using h
  rw [pyInt_of_nonneg _ hv0]
  exact ⟨snap_minutes_nonneg _, snap_minutes_le_of_dvd _ _ hflM hM hdvd⟩

/- ### The interaction handlers -/

/-- The y-and-minutes part of `EventItem.itemChange` (Moving): clamp the
proposed `y` to `[HEADER_HEIGHT, day_bottom_y - minutes_to_pixels duration]`
(`y = max(HEADER_HEIGHT, new_pos.y())`, then `y = min(y, max_y)`), truncate
`(y - HEADER_HEIGHT) / _minute_pixel_factor` with `int()`, then apply
`snap_minutes`. -/
def itemChange_minutes (grid_height : ℚ) (duration_min : Int) (y : ℚ) : Int :=
  snap_minutes (pyInt
    ((min (max HEADER_HEIGHT y)
        (day_bottom_y grid_height - minutes_to_pixels grid_height duration_min)
      - HEADER_HEIGHT) / minute_pixel_factor grid_height))

/-- The absolute start written back by `EventItem.itemChange`:
`day_date.replace(hour=START_HOUR, ...) + timedelta(minutes=...)` with
`day_date = week_start + col_idx days`, as naive wall-clock minutes
(`week_start` is the week's Monday at midnight). -/
def itemChange_new_start (grid_height column_width : ℚ)
    (week_start duration_min : Int) (x y : ℚ) : Int :=
  week_start + x_to_day_index column_width x * (24 * 60) + START_HOUR * 60
    + itemChange_minutes grid_height duration_min y

/-- `EventItem.mouseMoveEvent` in the resizing branch: the new duration
written to the model.  `new_height = max(minutes_to_pixels(SNAP_MINUTES),
initial_height + dy)` clamped to `day_bottom_y() - top`, converted with
`int(new_height / factor)`, snapped, floored at `SNAP_MINUTES`. -/
def mouseMove_resize_duration
    (grid_height top initial_height dy : ℚ) : Int :=
  max SNAP_MINUTES (snap_minutes (pyInt
    ((min (max (minutes_to_pixels grid_height SNAP_MINUTES)
          (initial_height + dy))
        (day_bottom_y grid_height - top)) / minute_pixel_factor grid_height)))

/-- The minutes part of `CalendarView.dropEvent`:
`y = max(HEADER_HEIGHT, min(scene_pos.y(), day_bottom_y()))`, then
`snap_minutes(int((y - HEADER_HEIGHT) / _minute_pixel_factor))`. -/
def dropEvent_minutes (grid_height y : ℚ) : Int :=
  snap_minutes (pyInt
    ((max HEADER_HEIGHT (min y (day_bottom_y grid_height)) - HEADER_HEIGHT)
      / minute_pixel_factor grid_height))

/-- The `CalendarEvent` constructed by `CalendarView.dropEvent` from a todo
payload dropped at scene position `(x, y)` (`week_start` at midnight). -/
def dropEvent_new_event (grid_height column_width : ℚ) (week_start : Int)
    (title : String) (duration_min : Int) (x y : ℚ) : CalendarEvent :=
  { title := title
    start := ⟨week_start + x_to_day_index column_width x * (24 * 60)
                + START_HOUR * 60 + dropEvent_minutes grid_height y, none⟩
    duration_min := duration_min
    color_idx := 0 }

/-- C8: `x_to_day_index` is total over every real `x` and always lands in
`[0, 6]`; any `x` left of the time-label gutter resolves to day 0 and any
`x` right of the last column resolves to day 6 (floor division, then
clamping) — never out of range, never an error. -/
theorem x_to_day_index_total_clamped (column_width x : ℚ)
    (hcw : 0 < column_width) :
    (0 ≤ x_to_day_index column_width x ∧ x_to_day_index column_width x ≤ 6)
    ∧ (x < TIME_LABEL_WIDTH → x_to_day_index column_width x = 0)
    ∧ (TIME_LABEL_WIDTH + 7 * column_width ≤ x
        → x_to_day_index column_width x = 6) := by
  refine ⟨by unfold x_to_day_index; omega, fun hx => ?_, fun hx => ?_⟩
  · have hneg : (x - TIME_LABEL_WIDTH) / column_width < 0 :=
      div_neg_of_neg_of_pos (by linarith) hcw
    have hfl : ¬ (0 ≤ ⌊(x - TIME_LABEL_WIDTH) / column_width⌋) := by
      rw [Int.floor_nonneg]
      linarith
    unfold x_to_day_index
    omega
  · have h7 : (7:ℚ) ≤ (x - TIME_LABEL_WIDTH) / column_width := by
      rw [le_div_iff₀ hcw]
      linarith
    have hfl : (7:Int) ≤ ⌊(x - TIME_LABEL_WIDTH) / column_width⌋ :=
      Int.le_floor.mpr (by exact_mod_cast h7)
    unfold x_to_day_index
    omega

/-- C1 (amended): during a Moving session, for any proposed pointer
position, provided the event's duration is a positive multiple of the snap
increment that does not exceed `total_minutes`, the start written by
`itemChange` has a day index in `[0, 6]` and day-relative minutes in
`[0, total_minutes - duration_min]` — the event's bottom never passes the
grid's end and its day never leaves the week.  (For a duration that is not a
multiple of 15, or exceeds the span, the snap step can push the minutes past
the bound: see the counterexample.) -/
theorem moving_writes_bounded_start
    (grid_height column_width x y : ℚ) (week_start duration_min : Int)
    (hgh : 300 ≤ grid_height) (hd0 : 0 < duration_min)
    (hdvd : SNAP_MINUTES ∣ duration_min)
    (hdle : duration_min ≤ total_minutes) :
    (0 ≤ x_to_day_index column_width x ∧ x_to_day_index column_width x ≤ 6)
    ∧ (0 ≤ itemChange_minutes grid_height duration_min y
        ∧ itemChange_minutes grid_height duration_min y
            ≤ total_minutes - duration_min)
    ∧ itemChange_new_start grid_height column_width week_start duration_min
        x y
        = week_start + x_to_day_index column_width x * (24 * 60)
          + START_HOUR * 60
          + itemChange_minutes grid_height duration_min y := by
  have hghpos : (0:ℚ) < grid_height := by linarith
  have hf := minute_pixel_factor_pos grid_height hghpos
  refine ⟨by unfold x_to_day_index; omega, ?_, rfl⟩
  have h1 := total_mul_mpf grid_height
  rw [total_minutes_eq] at h1
  push_cast at h1
  have hcast : ((duration_min : ℚ)) ≤ 1080 := by
    rw [total_minutes_eq] at hdle
    exact_mod_cast hdle
  have hd0q : (0:ℚ) ≤ (duration_min : ℚ) := by exact_mod_cast hd0.le
  have hbound : day_bottom_y grid_height
      - minutes_to_pixels grid_height duration_min - HEADER_HEIGHT
      = ((total_minutes - duration_min : Int) : ℚ)
          * minute_pixel_factor grid_height := by
    unfold day_bottom_y minutes_to_pixels HEADER_HEIGHT
    rw [total_minutes_eq]
    push_cast
    linarith [h1]
  have h26 : HEADER_HEIGHT
      ≤ day_bottom_y grid_height
        - minutes_to_pixels grid_height duration_min := by
    unfold day_bottom_y minutes_to_pixels HEADER_HEIGHT
    nlinarith [h1, hf.le, hcast, hd0q]
  have hnum : 0 ≤ min (max HEADER_HEIGHT y)
      (day_bottom_y grid_height - minutes_to_pixels grid_height duration_min)
      - HEADER_HEIGHT := by
    have hmin := le_min (le_max_left HEADER_HEIGHT y) h26
    linarith
  have hM : (0:Int) ≤ total_minutes - duration_min := by omega
  have hdvd15 : (15:Int) ∣ duration_min := by
    simpa [SNAP_MINUTES] using hdvd
  have hdvd2 : (15:Int) ∣ total_minutes - duration_min := by
    rw [total_minutes_eq]
    omega
  have hle : min (max HEADER_HEIGHT y)
      (day_bottom_y grid_height - minutes_to_pixels grid_height duration_min)
      - HEADER_HEIGHT
      ≤ ((total_minutes - duration_min : Int) : ℚ)
          * minute_pixel_factor grid_height := by
    rw [← hbound]
    have hmin := min_le_right (max HEADER_HEIGHT y)
      (day_bottom_y grid_height - minutes_to_pixels grid_height duration_min)
    linarith
  exact snap_pyInt_div_le (minute_pixel_factor grid_height) _
    (total_minutes - duration_min) hf hnum hM hdvd2 hle

theorem moving_writes_bounded_start_witness :
    (0 ≤ x_to_day_index 160 0 ∧ x_to_day_index 160 0 ≤ 6)
    ∧ (0 ≤ itemChange_minutes 1080 60 10000
        ∧ itemChange_minutes 1080 60 10000 ≤ total_minutes - 60) :=
  ⟨(moving_writes_bounded_start 1080 160 0 10000 0 60 (by norm_num)
      (by decide) (by decide) (by decide)).1,
   (moving_writes_bounded_start 1080 160 0 10000 0 60 (by norm_num)
      (by decide) (by decide) (by decide)).2.1⟩

/-- C1 counterexample: the claim fails as stated for arbitrary positive
durations.  With `grid_height = 1080` (factor 1) and a 7-minute event (such
durations arise from import), dragging far below the grid clamps the pixel
position correctly, but the snap step then rounds the `1073` raw minutes up
to `1080 > total_minutes - 7 = 1073`: the stored start's day-relative
minutes exceed `totalSpanMinutes - durationMinutes`, so the event's bottom
passes the grid's end. -/
theorem moving_clamp_counterexample :
    (0:Int) < 7
    ∧ total_minutes - 7 < itemChange_minutes 1080 7 10000 := by
  have h2 : day_bottom_y 1080 - minutes_to_pixels 1080 7 = 1099 := by
    unfold day_bottom_y minutes_to_pixels minute_pixel_factor HEADER_HEIGHT
    rw [total_minutes_eq]
    norm_num
  have h1 : max HEADER_HEIGHT (10000:ℚ) = 10000 :=
    max_eq_right (by unfold HEADER_HEIGHT; norm_num)
  have harg : (min (max HEADER_HEIGHT (10000:ℚ))
      (day_bottom_y 1080 - minutes_to_pixels 1080 7) - HEADER_HEIGHT)
      / minute_pixel_factor 1080 = ((1073:Int):ℚ) := by
    rw [h2, h1, min_eq_right (by norm_num : (1099:ℚ) ≤ 10000)]
    unfold HEADER_HEIGHT minute_pixel_factor
    rw [total_minutes_eq]
    norm_num
  have heval : itemChange_minutes 1080 7 10000
      = snap_minutes (pyInt ((1073:Int):ℚ)) := by
    unfold itemChange_minutes
    rw [harg]
  rw [heval, pyInt_intCast]
  exact ⟨by decide, by decide⟩

/-- C2 (amended): during a Resizing session whose box top sits at
`HEADER_HEIGHT` plus the pixel height of a snapped day-relative start (a
multiple of `SNAP_MINUTES` in `[0, total_minutes - SNAP_MINUTES]`), for any
pointer delta and any initial height, the duration written to the event is
at least one snap increment, and the event's bottom edge (its top `y` plus
`minutes_to_pixels duration`) never exceeds `day_bottom_y`.  (The session
hypothesis is needed: a top below `day_bottom_y - minutes_to_pixels
SNAP_MINUTES` is reachable through the Moving overshoot of the C1
counterexample, and there the duration floor pushes the bottom edge past
the grid: see the counterexample.) -/
theorem resizing_duration_invariant
    (grid_height top initial_height dy : ℚ) (start_minutes : Int)
    (hgh : 300 ≤ grid_height)
    (htop : top = HEADER_HEIGHT
        + minutes_to_pixels grid_height start_minutes)
    (hsdvd : SNAP_MINUTES ∣ start_minutes) (hs0 : 0 ≤ start_minutes)
    (hsle : start_minutes ≤ total_minutes - SNAP_MINUTES) :
    SNAP_MINUTES
      ≤ mouseMove_resize_duration grid_height top initial_height dy
    ∧ top + minutes_to_pixels grid_height
          (mouseMove_resize_duration grid_height top initial_height dy)
        ≤ day_bottom_y grid_height := by
  have hghpos : (0:ℚ) < grid_height := by linarith
  have hf := minute_pixel_factor_pos grid_height hghpos
  have h1 := total_mul_mpf grid_height
  rw [total_minutes_eq] at h1
  push_cast at h1
  rw [total_minutes_eq] at hsle
  simp only [SNAP_MINUTES] at hsdvd hsle
  have hs0q : (0:ℚ) ≤ (start_minutes : ℚ) := by exact_mod_cast hs0
  have hsleq : ((start_minutes : ℚ)) ≤ 1065 := by exact_mod_cast hsle
  have hM : (0:Int) ≤ total_minutes - start_minutes := by
    rw [total_minutes_eq]
    omega
  have hdvd2 : (15:Int) ∣ total_minutes - start_minutes := by
    rw [total_minutes_eq]
    omega
  have hbound : day_bottom_y grid_height - top
      = ((total_minutes - start_minutes : Int) : ℚ)
          * minute_pixel_factor grid_height := by
    rw [htop]
    unfold day_bottom_y minutes_to_pixels HEADER_HEIGHT
    rw [total_minutes_eq]
    push_cast
    linarith [h1]
  have hMq : (0:ℚ) ≤ ((total_minutes - start_minutes : Int) : ℚ)
      * minute_pixel_factor grid_height := by
    have : ((total_minutes - start_minutes : Int) : ℚ) ≥ 0 := by
      exact_mod_cast hM
    exact mul_nonneg this hf.le
  have hsnap0 : (0:ℚ)
      ≤ minutes_to_pixels grid_height SNAP_MINUTES := by
    unfold minutes_to_pixels SNAP_MINUTES
    push_cast
    linarith [hf.le]
  have hnum : 0 ≤ min (max (minutes_to_pixels grid_height SNAP_MINUTES)
      (initial_height + dy)) (day_bottom_y grid_height - top) := by
    refine le_min ?_ ?_
    · exact le_trans hsnap0 (le_max_left _ _)
    · rw [hbound]
      exact hMq
  have hle : min (max (minutes_to_pixels grid_height SNAP_MINUTES)
      (initial_height + dy)) (day_bottom_y grid_height - top)
      ≤ ((total_minutes - start_minutes : Int) : ℚ)
          * minute_pixel_factor grid_height := by
    rw [← hbound]
    exact min_le_right _ _
  have key := snap_pyInt_div_le (minute_pixel_factor grid_height) _
    (total_minutes - start_minutes) hf hnum hM hdvd2 hle
  have h15M : SNAP_MINUTES ≤ total_minutes - start_minutes := by
    rw [total_minutes_eq]
    unfold SNAP_MINUTES
    omega
  have hdur : mouseMove_resize_duration grid_height top initial_height dy
      ≤ total_minutes - start_minutes := by
    unfold mouseMove_resize_duration
    exact max_le h15M key.2
  refine ⟨le_max_left _ _, ?_⟩
  have hdurq : ((mouseMove_resize_duration grid_height top
      initial_height dy : Int) : ℚ)
      ≤ ((total_minutes - start_minutes : Int) : ℚ) := by
    exact_mod_cast hdur
  have hmul := mul_le_mul_of_nonneg_right hdurq hf.le
  rw [total_minutes_eq] at hmul
  push_cast at hmul
  rw [htop] at hmul ⊢
  unfold day_bottom_y
  unfold minutes_to_pixels HEADER_HEIGHT at hmul ⊢
  nlinarith [h1, hmul]

/-- C5 (amended): the drop handler resolves the day index with the same
`x_to_day_index` as Moving, converts pixels to minutes and snaps
identically, but clamps `y` to `[HEADER_HEIGHT, day_bottom_y()]` without
subtracting the event's height as Moving does; consequently it agrees with
the Moving resolution whenever
`y ≤ day_bottom_y() - minutes_to_pixels(duration)` (and can differ below
that: see the counterexample).  The spec's scenario holds: with
`grid_height = 500`, dropping `{title: Gym, duration: 60}` at day index 2
and a `y` whose raw offset is 127 minutes yields an event starting at
`week_start + 2 days` at 08:00 with duration 60. -/
theorem drop_resolves_like_moving_clamped :
    (∀ (grid_height y : ℚ) (duration_min : Int),
        0 < grid_height → 0 ≤ duration_min → duration_min ≤ total_minutes →
        y ≤ day_bottom_y grid_height
              - minutes_to_pixels grid_height duration_min →
        dropEvent_minutes grid_height y
          = itemChange_minutes grid_height duration_min y)
    ∧ (∀ week_start : Int,
        dropEvent_new_event 500 160 week_start "Gym" 60 374 (26 + 3175/54)
          = ⟨"Gym", ⟨week_start + 2 * (24 * 60) + 8 * 60, none⟩, 60, 0⟩) := by
  constructor
  · intro grid_height y duration_min hgh hd0 hdle hy
    have hf := minute_pixel_factor_pos grid_height hgh
    have h1 := total_mul_mpf grid_height
    rw [total_minutes_eq] at h1
    push_cast at h1
    have hcast : ((duration_min : ℚ)) ≤ 1080 := by
      rw [total_minutes_eq] at hdle
      exact_mod_cast hdle
    have hd0q : (0:ℚ) ≤ (duration_min : ℚ) := by exact_mod_cast hd0
    have hmtp0 : (0:ℚ)
        ≤ minutes_to_pixels grid_height duration_min :=
      mul_nonneg hd0q hf.le
    have hmtpgh : minutes_to_pixels grid_height duration_min
        ≤ grid_height := by
      unfold minutes_to_pixels
      nlinarith [h1, hf.le]
    have hclamp : max HEADER_HEIGHT (min y (day_bottom_y grid_height))
        = min (max HEADER_HEIGHT y)
            (day_bottom_y grid_height
              - minutes_to_pixels grid_height duration_min) := by
      unfold day_bottom_y at hy ⊢
      unfold HEADER_HEIGHT at hy ⊢
      rcases le_total y 26 with hy26 | hy26
      · rw [min_eq_left (by linarith), max_eq_left hy26,
            min_eq_left (by linarith)]
      · rw [min_eq_left (by linarith), max_eq_right hy26,
            min_eq_left (by linarith)]
    unfold dropEvent_minutes itemChange_minutes
    rw [hclamp]
  · intro week_start
    have hday : x_to_day_index 160 374 = 2 := by
      unfold x_to_day_index TIME_LABEL_WIDTH
      norm_num [Int.floor_eq_iff]
    have hmtp : day_bottom_y 500 = 526 := by
      unfold day_bottom_y HEADER_HEIGHT
      norm_num
    have harg : (max HEADER_HEIGHT
        (min ((26:ℚ) + 3175/54) (day_bottom_y 500)) - HEADER_HEIGHT)
        / minute_pixel_factor 500 = ((127:Int):ℚ) := by
      rw [hmtp, min_eq_left (by norm_num),
          max_eq_right (by unfold HEADER_HEIGHT; norm_num)]
      unfold HEADER_HEIGHT minute_pixel_factor
      rw [total_minutes_eq]
      norm_num
    have hmin : dropEvent_minutes 500 (26 + 3175/54) = 120 := by
      unfold dropEvent_minutes
      rw [harg, pyInt_intCast]
      decide
    unfold dropEvent_new_event
    rw [hday, hmin]
    simp only [CalendarEvent.mk.injEq, PyDatetime.mk.injEq, START_HOUR,
      and_true, true_and]
    omega

theorem drop_resolves_like_moving_clamped_witness :
    dropEvent_minutes 1080 100 = itemChange_minutes 1080 60 100
    ∧ dropEvent_new_event 500 160 0 "Gym" 60 374 (26 + 3175/54)
        = ⟨"Gym", ⟨0 + 2 * (24 * 60) + 8 * 60, none⟩, 60, 0⟩ :=
  ⟨drop_resolves_like_moving_clamped.1 1080 100 60 (by norm_num)
      (by decide) (by decide)
      (by unfold day_bottom_y minutes_to_pixels minute_pixel_factor
            HEADER_HEIGHT
          rw [total_minutes_eq]
          norm_num),
   drop_resolves_like_moving_clamped.2 0⟩

/-- C5 counterexample: the drop handler does not resolve `y` exactly as the
Moving logic does.  Moving clamps the proposed top to
`day_bottom_y() - minutes_to_pixels(duration)`, while the drop handler
clamps only to `day_bottom_y()`: dropping a 60-minute todo at the grid's
bottom edge (`grid_height = 1080`, `y = 1106`) stores 1080 day-relative
minutes, whereas the Moving resolution of the same position and duration
yields 1020. -/
theorem drop_clamp_counterexample :
    dropEvent_minutes 1080 1106 = 1080
    ∧ itemChange_minutes 1080 60 1106 = 1020
    ∧ dropEvent_minutes 1080 1106 ≠ itemChange_minutes 1080 60 1106 := by
  have hdb : day_bottom_y 1080 = 1106 := by
    unfold day_bottom_y HEADER_HEIGHT
    norm_num
  have hdrop : dropEvent_minutes 1080 1106 = 1080 := by
    have harg : (max HEADER_HEIGHT
        (min (1106:ℚ) (day_bottom_y 1080)) - HEADER_HEIGHT)
        / minute_pixel_factor 1080 = ((1080:Int):ℚ) := by
      rw [hdb, min_self, max_eq_right (by unfold HEADER_HEIGHT; norm_num)]
      unfold HEADER_HEIGHT minute_pixel_factor
      rw [total_minutes_eq]
      norm_num
    unfold dropEvent_minutes
    rw [harg, pyInt_intCast]
    decide
  have hmove : itemChange_minutes 1080 60 1106 = 1020 := by
    have h2 : day_bottom_y 1080 - minutes_to_pixels 1080 60 = 1046 := by
      unfold day_bottom_y minutes_to_pixels minute_pixel_factor
        HEADER_HEIGHT
      rw [total_minutes_eq]
      norm_num
    have harg : (min (max HEADER_HEIGHT (1106:ℚ))
        (day_bottom_y 1080 - minutes_to_pixels 1080 60) - HEADER_HEIGHT)
        / minute_pixel_factor 1080 = ((1020:Int):ℚ) := by
      rw [h2, max_eq_right (by unfold HEADER_HEIGHT; norm_num),
          min_eq_right (by norm_num)]
      unfold HEADER_HEIGHT minute_pixel_factor
      rw [total_minutes_eq]
      norm_num
    unfold itemChange_minutes
    rw [harg, pyInt_intCast]
    decide
  exact ⟨hdrop, hmove, by rw [hdrop, hmove]; decide⟩

theorem resizing_duration_invariant_witness :
    SNAP_MINUTES ≤ mouseMove_resize_duration 1080 86 40 100
    ∧ 86 + minutes_to_pixels 1080 (mouseMove_resize_duration 1080 86 40 100)
        ≤ day_bottom_y 1080 :=
  resizing_duration_invariant 1080 86 40 100 60 (by norm_num)
    (by unfold HEADER_HEIGHT minutes_to_pixels minute_pixel_factor
        rw [total_minutes_eq]
        norm_num)
    (by decide) (by decide) (by decide)

/-- C2 counterexample: the claim fails as stated for arbitrary session
states.  The Moving overshoot of the C1 counterexample leaves an imported
short event's top at `day_bottom_y` (a mouse release after a move never
re-derives the item's geometry), and a resize session started there — the
whole box lies in the handle strip — computes `max_height = 0`, snaps 0 raw
minutes to 0, and the floor `max(SNAP_MINUTES, 0)` then writes duration 15:
with `grid_height = 1080` (factor 1), top `1106 = day_bottom_y`, initial
height 7 and pointer delta 0, the bottom edge ends 15 px past
`day_bottom_y`. -/
theorem resizing_clamp_counterexample :
    mouseMove_resize_duration 1080 1106 7 0 = 15
    ∧ day_bottom_y 1080
        < 1106 + minutes_to_pixels 1080
            (mouseMove_resize_duration 1080 1106 7 0) := by
  have hdb : day_bottom_y 1080 = 1106 := by
    unfold day_bottom_y HEADER_HEIGHT
    norm_num
  have hmtp15 : minutes_to_pixels 1080 SNAP_MINUTES = 15 := by
    unfold minutes_to_pixels minute_pixel_factor SNAP_MINUTES
    rw [total_minutes_eq]
    norm_num
  have harg : (min (max (minutes_to_pixels 1080 SNAP_MINUTES) ((7:ℚ) + 0))
      (day_bottom_y 1080 - 1106)) / minute_pixel_factor 1080
      = ((0:Int):ℚ) := by
    rw [hdb, hmtp15, max_eq_left (by norm_num : (7:ℚ) + 0 ≤ 15),
        show (1106:ℚ) - 1106 = 0 by norm_num,
        min_eq_right (by norm_num : (0:ℚ) ≤ 15)]
    unfold minute_pixel_factor
    rw [total_minutes_eq]
    norm_num
  have hdur : mouseMove_resize_duration 1080 1106 7 0 = 15 := by
    unfold mouseMove_resize_duration
    rw [harg, pyInt_intCast]
    decide
  refine ⟨hdur, ?_⟩
  rw [hdur, hdb]
  have h15 : minutes_to_pixels 1080 15 = 15 := by
    unfold minutes_to_pixels minute_pixel_factor
    rw [total_minutes_eq]
    norm_num
  rw [h15]
  norm_num

theorem x_to_day_index_total_clamped_witness :
    x_to_day_index 160 (-100) = 0
    ∧ (0 ≤ x_to_day_index 160 5000 ∧ x_to_day_index 160 5000 ≤ 6)
    ∧ x_to_day_index 160 5000 = 6 :=
  ⟨(x_to_day_index_total_clamped 160 (-100) (by norm_num)).2.1
      (by unfold TIME_LABEL_WIDTH; norm_num),
   (x_to_day_index_total_clamped 160 5000 (by norm_num)).1,
   (x_to_day_index_total_clamped 160 5000 (by norm_num)).2.2
      (by unfold TIME_LABEL_WIDTH; norm_num)⟩
